import Mathlib

/-!
Verification of the render-target core of `sfml_graphics`
(`src/SFML/Graphics/RenderTarget.cpp` and friends) against its
natural-language specification.

Floats are modelled as exact rationals (`Rat`), machine integers as
`Nat`/`Int` (with an explicit `% 2^64` where the 64-bit counters matter),
and the GL side effects of each operation as an explicit list of
`GpuCmd` values, so that the state-cache behaviour of the draw pipeline
becomes a pure, executable state machine.
-/

namespace SfmlGraphics

/-- `sf::Vector2f` (two 32-bit floats), modelled with exact rationals. -/
structure V2q where
  x : Rat
  y : Rat
deriving DecidableEq, Repr

/-- `sf::Vector2i` (two ints). -/
structure V2i where
  x : Int
  y : Int
deriving DecidableEq, Repr

/-- `sf::Vector2u` (two unsigned ints). -/
structure V2u where
  x : Nat
  y : Nat
deriving DecidableEq, Repr

/-- `sf::FloatRect` (left, top, width, height as floats). -/
structure FloatRect where
  left : Rat
  top : Rat
  width : Rat
  height : Rat
deriving DecidableEq, Repr

/-- `sf::IntRect` (left, top, width, height as ints). -/
@[ext]
structure IntRect where
  left : Int
  top : Int
  width : Int
  height : Int
deriving DecidableEq, Repr

/-- `sf::Color` (four 8-bit channels). -/
structure Color where
  r : Nat
  g : Nat
  b : Nat
  a : Nat
deriving DecidableEq, Repr

/-- `static_cast<int>` applied to a (finite, in-range) floating value:
truncation toward zero, on the exact-rational model of floats. -/
def ratTrunc (q : Rat) : Int :=
  if 0 ≤ q.num then Int.ofNat (q.num.toNat / q.den)
  else -Int.ofNat ((-q.num).toNat / q.den)

/-- Truncating an integer-valued rational returns that integer. -/
theorem ratTrunc_intCast (z : Int) : ratTrunc (z : Rat) = z := by
  unfold ratTrunc
  rw [Rat.num_intCast, Rat.den_intCast]
  simp only [Nat.div_one, Int.ofNat_eq_coe]
  by_cases h : 0 ≤ z
  · rw [if_pos h]; omega
  · rw [if_neg h]; omega

/-- On nonnegative rationals, C-style truncation agrees with the floor. -/
theorem ratTrunc_of_nonneg (q : Rat) (h : 0 ≤ q) : ratTrunc q = ⌊q⌋ := by
  have hn : (0 : Int) ≤ q.num := Rat.num_nonneg.mpr h
  rw [Rat.floor_def]
  unfold ratTrunc
  rw [if_pos hn]
  have hdiv : ((q.num.toNat / q.den : Nat) : Int) = (q.num.toNat : Int) / (q.den : Int) :=
    Int.ofNat_ediv _ _
  rw [show Int.ofNat (q.num.toNat / q.den) = ((q.num.toNat / q.den : Nat) : Int) from rfl,
    hdiv, Int.toNat_of_nonneg hn]

/-- Evaluation rule for `ratTrunc` on nonnegative values bracketed by an
integer. -/
theorem ratTrunc_eq_of (q : Rat) (z : Int) (hz : 0 ≤ z) (h1 : (z : Rat) ≤ q)
    (h2 : q < z + 1) : ratTrunc q = z := by
  have h0 : (0 : Rat) ≤ q := le_trans (by exact_mod_cast hz) h1
  rw [ratTrunc_of_nonneg q h0, Int.floor_eq_iff]
  exact ⟨h1, by exact_mod_cast h2⟩

/-- `RenderTarget::getViewport` (RenderTarget.cpp:520-530): maps a view's
normalized viewport rectangle to pixel coordinates using the target's
current pixel size, adding `0.5` to each component before the integer
truncation. -/
def getViewport (size : V2u) (viewport : FloatRect) : IntRect :=
  let width : Rat := (size.x : Rat)
  let height : Rat := (size.y : Rat)
  { left := ratTrunc (1/2 + width * viewport.left)
    top := ratTrunc (1/2 + height * viewport.top)
    width := ratTrunc (1/2 + width * viewport.width)
    height := ratTrunc (1/2 + height * viewport.height) }

/-- Modelled from the spec: `sf::View` "produces a projection transform and
its inverse" (View.cpp / Transform.cpp are matrix-math collaborators that are
not part of src/, treated as a black box there).  `toClip` stands for
`view.getTransform().transformPoint`, `fromClip` for
`view.getInverseTransform().transformPoint`. -/
structure ViewTransform where
  toClip : V2q → V2q
  fromClip : V2q → V2q

/-- `RenderTarget::mapPixelToCoords` (RenderTarget.cpp:541-551): convert the
pixel to viewport-relative homogeneous coordinates, then apply the inverse
view transform. -/
def mapPixelToCoords (size : V2u) (vt : ViewTransform) (vp : FloatRect) (point : V2i) : V2q :=
  let viewport := getViewport size vp
  let nx : Rat := -1 + 2 * ((point.x : Rat) - (viewport.left : Rat)) / (viewport.width : Rat)
  let ny : Rat := 1 - 2 * ((point.y : Rat) - (viewport.top : Rat)) / (viewport.height : Rat)
  vt.fromClip ⟨nx, ny⟩

/-- `RenderTarget::mapCoordsToPixel` (RenderTarget.cpp:562-574): apply the
view transform, then convert from homogeneous coordinates to pixels with an
integer truncation. -/
def mapCoordsToPixel (size : V2u) (vt : ViewTransform) (vp : FloatRect) (point : V2q) : V2i :=
  let normalized := vt.toClip point
  let viewport := getViewport size vp
  { x := ratTrunc ((normalized.x + 1) / 2 * (viewport.width : Rat) + (viewport.left : Rat))
    y := ratTrunc ((-normalized.y + 1) / 2 * (viewport.height : Rat) + (viewport.top : Rat)) }

/-- The full viewport (0,0,1,1) on an 800×600 target maps to the full pixel
rectangle. -/
theorem getViewport_full : getViewport ⟨800, 600⟩ ⟨0, 0, 1, 1⟩ = ⟨0, 0, 800, 600⟩ := by
  unfold getViewport
  ext <;> (apply ratTrunc_eq_of <;> norm_num)

/-- The viewport (0,0.5,0.5,0.5) on an 800×600 target maps to (0,300,400,300). -/
theorem getViewport_half : getViewport ⟨800, 600⟩ ⟨0, 1/2, 1/2, 1/2⟩ = ⟨0, 300, 400, 300⟩ := by
  unfold getViewport
  ext <;> (apply ratTrunc_eq_of <;> norm_num)

/-- Claim C6: `getViewport` maps the normalized viewport rectangle through
the target's pixel size with round-to-nearest via adding 0.5 before
truncation; a viewport (0,0,1,1) on an 800×600 target yields (0,0,800,600)
and (0,0.5,0.5,0.5) yields (0,300,400,300). -/
theorem c6_getViewport_rounding :
    getViewport ⟨800, 600⟩ ⟨0, 0, 1, 1⟩ = ⟨0, 0, 800, 600⟩ ∧
    getViewport ⟨800, 600⟩ ⟨0, 1/2, 1/2, 1/2⟩ = ⟨0, 300, 400, 300⟩ :=
  ⟨getViewport_full, getViewport_half⟩

/-- Claim C5: for every view transform pair that are mutual inverses (the
spec's contract for `View`), every target size and every pixel point inside
the view's viewport, mapping the pixel to world coordinates and back returns
the same pixel within ±1 (in the exact-rational model the round trip is in
fact exact). -/
theorem c5_map_roundtrip (size : V2u) (vt : ViewTransform) (vp : FloatRect) (P : V2i)
    (hinv : ∀ q, vt.toClip (vt.fromClip q) = q)
    (hx1 : (getViewport size vp).left ≤ P.x)
    (hx2 : P.x < (getViewport size vp).left + (getViewport size vp).width)
    (hy1 : (getViewport size vp).top ≤ P.y)
    (hy2 : P.y < (getViewport size vp).top + (getViewport size vp).height) :
    |(mapCoordsToPixel size vt vp (mapPixelToCoords size vt vp P)).x - P.x| ≤ 1 ∧
    |(mapCoordsToPixel size vt vp (mapPixelToCoords size vt vp P)).y - P.y| ≤ 1 := by
  have hw : (0 : Rat) < ((getViewport size vp).width : Rat) := by
    have : (0 : Int) < (getViewport size vp).width := by omega
    exact_mod_cast this
  have hh : (0 : Rat) < ((getViewport size vp).height : Rat) := by
    have : (0 : Int) < (getViewport size vp).height := by omega
    exact_mod_cast this
  unfold mapCoordsToPixel mapPixelToCoords
  rw [hinv]
  have ex : ((-1 + 2 * ((P.x : Rat) - ((getViewport size vp).left : Rat)) /
        ((getViewport size vp).width : Rat)) + 1) / 2 * ((getViewport size vp).width : Rat) +
        ((getViewport size vp).left : Rat) = ((P.x : Int) : Rat) := by
    field_simp
    ring
  have ey : (-(1 - 2 * ((P.y : Rat) - ((getViewport size vp).top : Rat)) /
        ((getViewport size vp).height : Rat)) + 1) / 2 * ((getViewport size vp).height : Rat) +
        ((getViewport size vp).top : Rat) = ((P.y : Int) : Rat) := by
    field_simp
    ring
  simp only [ex, ey, ratTrunc_intCast, sub_self, abs_zero]
  exact ⟨by norm_num, by norm_num⟩

/-- Identity view transform (used to instantiate `c5_map_roundtrip`). -/
def idViewTransform : ViewTransform :=
  { toClip := fun q => q, fromClip := fun q => q }

/-- Witness for C5 at a concrete input: the 800×600 target with the full
viewport and pixel (10, 20) under an identity view transform. -/
theorem c5_map_roundtrip_witness :
    ((getViewport ⟨800, 600⟩ ⟨0, 0, 1, 1⟩).left ≤ (10 : Int) ∧
     (10 : Int) < (getViewport ⟨800, 600⟩ ⟨0, 0, 1, 1⟩).left +
       (getViewport ⟨800, 600⟩ ⟨0, 0, 1, 1⟩).width ∧
     (getViewport ⟨800, 600⟩ ⟨0, 0, 1, 1⟩).top ≤ (20 : Int) ∧
     (20 : Int) < (getViewport ⟨800, 600⟩ ⟨0, 0, 1, 1⟩).top +
       (getViewport ⟨800, 600⟩ ⟨0, 0, 1, 1⟩).height) ∧
    (|(mapCoordsToPixel ⟨800, 600⟩ idViewTransform ⟨0, 0, 1, 1⟩
        (mapPixelToCoords ⟨800, 600⟩ idViewTransform ⟨0, 0, 1, 1⟩ ⟨10, 20⟩)).x - 10| ≤ 1 ∧
     |(mapCoordsToPixel ⟨800, 600⟩ idViewTransform ⟨0, 0, 1, 1⟩
        (mapPixelToCoords ⟨800, 600⟩ idViewTransform ⟨0, 0, 1, 1⟩ ⟨10, 20⟩)).y - 20| ≤ 1) :=
  ⟨⟨by rw [getViewport_full]; decide, by rw [getViewport_full]; decide,
    by rw [getViewport_full]; decide, by rw [getViewport_full]; decide⟩,
   c5_map_roundtrip ⟨800, 600⟩ idViewTransform ⟨0, 0, 1, 1⟩ ⟨10, 20⟩
     (fun _ => rfl) (by rw [getViewport_full]; decide)
     (by rw [getViewport_full]; decide)
     (by rw [getViewport_full]; decide)
     (by rw [getViewport_full]; decide)⟩

/-- `sf::BlendMode::Factor` (RenderTarget.cpp:73-94 lists the constants). -/
inductive BlendFactor where
  | zero
  | one
  | srcColor
  | oneMinusSrcColor
  | dstColor
  | oneMinusDstColor
  | srcAlpha
  | oneMinusSrcAlpha
  | dstAlpha
  | oneMinusDstAlpha
deriving DecidableEq, Repr

/-- `sf::BlendMode::Equation` (RenderTarget.cpp:98-114 lists the constants). -/
inductive BlendEquation where
  | add
  | subtract
  | reverseSubtract
  | min
  | max
deriving DecidableEq, Repr

/-- `sf::BlendMode`: 4 factors + 2 equations, compared componentwise. -/
structure BlendMode where
  colorSrcFactor : BlendFactor
  colorDstFactor : BlendFactor
  colorEquation : BlendEquation
  alphaSrcFactor : BlendFactor
  alphaDstFactor : BlendFactor
  alphaEquation : BlendEquation
deriving DecidableEq, Repr

/-- Modelled from the spec: `sf::BlendAlpha`, the default blend mode applied
by `resetGLStates` (BlendMode.cpp is not part of src/; these are SFML's
standard alpha-blending factors). -/
def blendAlpha : BlendMode :=
  ⟨.srcAlpha, .oneMinusSrcAlpha, .add, .one, .oneMinusSrcAlpha, .add⟩

/-- Modelled from the spec: `sf::BlendAdd`, an additive blend mode distinct
from the default (used to exercise blend-mode changes). -/
def blendAdd : BlendMode :=
  ⟨.srcAlpha, .one, .add, .one, .one, .add⟩

/-- Modelled from the spec: `sf::View` is "rectangle-in-world (center, size)
+ viewport-in-target (normalized rectangle)" (View.cpp is not part of
src/). -/
structure View where
  center : V2q
  size : V2q
  viewport : FloatRect
deriving DecidableEq, Repr

/-- Modelled from the spec: `sf::View::reset(FloatRect)` re-derives center
and size from a world rectangle, keeping the viewport. -/
def View.reset (v : View) (r : FloatRect) : View :=
  { v with center := ⟨r.left + r.width / 2, r.top + r.height / 2⟩,
           size := ⟨r.width, r.height⟩ }

/-- Modelled from the spec: a default-constructed `sf::View` covers the
world rectangle (0,0,1000,1000) with the full viewport. -/
def View.default : View :=
  View.reset ⟨⟨0, 0⟩, ⟨0, 0⟩, ⟨0, 0, 1, 1⟩⟩ ⟨0, 0, 1000, 1000⟩

/-- `RenderTarget::StatesCache`: the per-target GPU state cache
(last blend mode, view-dirty flag, states-set flag, cache-valid flag). -/
structure StatesCache where
  enable : Bool
  glStatesSet : Bool
  viewChanged : Bool
  lastBlendMode : BlendMode
deriving DecidableEq, Repr

/-- `sf::RenderStates` restricted to the field the target's state cache
reacts to: the blend mode.  (The transform is forwarded to the pipeline
unconditionally, and texture/shader are forwarded untouched; neither is read
or written by the RenderTarget cache logic under verification.) -/
structure RenderStates where
  blendMode : BlendMode
deriving DecidableEq, Repr

/-- The per-instance fields of `sf::RenderTarget`: default view, current
view, state cache and unique id. -/
structure RenderTargetState where
  defaultView : View
  view : View
  cache : StatesCache
  id : Nat
deriving DecidableEq, Repr

/-- The world visible to a (window-backed) render target: the process-wide
`lastActiveId` (RenderTarget.cpp:50), the window's pixel size
(`RenderWindow::m_screenSize`, backing `getSize()`), and the target state. -/
structure World where
  lastActiveId : Nat
  screenSize : V2u
  rt : RenderTargetState
deriving DecidableEq, Repr

/-- GPU-level effects issued by the target/pipeline, in order. -/
inductive GpuCmd where
  /-- `glClearColor` + `glClear` (RenderTarget.cpp:491-492). -/
  | clearCmd (r g b a : Nat)
  /-- `glDisable(GL_CULL_FACE)`, `glDisable(GL_DEPTH_TEST)`,
  `glEnable(GL_BLEND)` (RenderTarget.cpp:677-679). -/
  | glDefaults
  /-- the `glBlendFuncSeparate`/`glBlendEquationSeparate` calls of
  `applyBlendMode` (RenderTarget.cpp:726-770). -/
  | blendConfig (mode : BlendMode)
  /-- `glViewport` + staging the projection matrix, from `applyCurrentView`
  (RenderTarget.cpp:712-722). -/
  | viewportConfig (viewport : IntRect)
  /-- staging the model transform in the pipeline, from `applyTransform`
  (RenderTarget.cpp:774-777). -/
  | setTransform
  /-- `VertexBuffer::bind(NULL)` (RenderTarget.cpp:685). -/
  | bindVertexBufferNone
  /-- pipeline `drawVertices`: `glBufferSubData` upload of the vertex slice
  into the staging buffer followed by `glDrawArrays` (RenderTarget.cpp:370-398). -/
  | uploadAndDrawArrays (firstVertex vertexCount : Nat)
  /-- pipeline `drawVertexBuffer`: `glDrawArrays` over the caller's GPU
  buffer (RenderTarget.cpp:401-416). -/
  | drawFromVertexBuffer (firstVertex vertexCount : Nat)
deriving DecidableEq, Repr

/-- `isActive(id)` (RenderTarget.cpp:66-69). -/
def isActive (w : World) (id : Nat) : Bool :=
  w.lastActiveId == id

/-- `RenderTarget::setActive` (RenderTarget.cpp:641-645): invalidates the
per-target cache and reports success.  (`RenderWindow::setActive` adds only
an FBO unbind on top of this and also returns true.) -/
def RenderTargetState.setActive (t : RenderTargetState) (_active : Bool) :
    RenderTargetState × Bool :=
  ({ t with cache := { t.cache with enable := false } }, true)

/-- `RenderTarget::setView` (RenderTarget.cpp:498-502). -/
def setView (t : RenderTargetState) (v : View) : RenderTargetState :=
  { t with view := v, cache := { t.cache with viewChanged := true } }

/-- `RenderTarget::getViewport` at the target level (RenderTarget.cpp:520-530). -/
def getViewportOf (size : V2u) (v : View) : IntRect :=
  getViewport size v.viewport

/-- `RenderTarget::applyCurrentView` (RenderTarget.cpp:712-722). -/
def applyCurrentView (size : V2u) (t : RenderTargetState) :
    RenderTargetState × List GpuCmd :=
  ({ t with cache := { t.cache with viewChanged := false } },
   [.viewportConfig (getViewportOf size t.view)])

/-- `RenderTarget::applyBlendMode` (RenderTarget.cpp:726-770). -/
def applyBlendMode (t : RenderTargetState) (mode : BlendMode) :
    RenderTargetState × List GpuCmd :=
  ({ t with cache := { t.cache with lastBlendMode := mode } }, [.blendConfig mode])

/-- `RenderTarget::resetGLStates` (RenderTarget.cpp:663-692): applies the GL
defaults, the default blend mode, unbinds the vertex buffer, re-sets the
current view and re-enables the cache. -/
def resetGLStates (w : World) : World × List GpuCmd :=
  let act := if isActive w w.rt.id then (w.rt, true) else w.rt.setActive true
  if act.2 then
    let t := { act.1 with cache := { act.1.cache with glStatesSet := true } }
    let ab := applyBlendMode t blendAlpha
    let t := setView ab.1 ab.1.view
    let t := { t with cache := { t.cache with enable := true } }
    ({ w with rt := t }, .glDefaults :: ab.2 ++ [.bindVertexBufferNone])
  else
    ({ w with rt := act.1 }, [])

/-- `RenderTarget::setupDraw` (RenderTarget.cpp:781-796): lazy state reset,
unconditional transform, view only if dirty or cache cold, blend mode only
if changed or cache cold. -/
def setupDraw (w : World) (states : RenderStates) : World × List GpuCmd :=
  let r0 := if !w.rt.cache.glStatesSet then resetGLStates w else (w, [])
  let w := r0.1
  let r1 :=
    if !w.rt.cache.enable || w.rt.cache.viewChanged then applyCurrentView w.screenSize w.rt
    else (w.rt, [])
  let r2 :=
    if !r1.1.cache.enable || states.blendMode ≠ r1.1.cache.lastBlendMode then
      applyBlendMode r1.1 states.blendMode
    else (r1.1, [])
  ({ w with rt := r2.1 }, r0.2 ++ .setTransform :: r1.2 ++ r2.2)

/-- `RenderTarget::cleanupDraw` (RenderTarget.cpp:800-804). -/
def cleanupDraw (w : World) : World :=
  { w with rt := { w.rt with cache := { w.rt.cache with enable := true } } }

/-- `RenderTarget::clear` (RenderTarget.cpp:485-494): activate if needed,
record this target as last active, issue the clear. -/
def clear (w : World) (c : Color) : World × List GpuCmd :=
  let act := if isActive w w.rt.id then (w.rt, true) else w.rt.setActive true
  let w := { w with rt := act.1 }
  if act.2 then
    ({ w with lastActiveId := w.rt.id }, [.clearCmd c.r c.g c.b c.a])
  else
    (w, [])

/-- The body of `RenderTarget::draw(const Vertex*, ...)` once the target is
active (RenderTarget.cpp:596-600): setupDraw, pipeline drawVertices (always
with firstVertex 0 and the full count), cleanupDraw. -/
def drawActivated (w : World) (vertexCount : Nat) (states : RenderStates) :
    World × List GpuCmd :=
  let s := setupDraw w states
  (cleanupDraw s.1, s.2 ++ [.uploadAndDrawArrays 0 vertexCount])

/-- `RenderTarget::draw(const Vertex*, std::size_t, PrimitiveType, const
RenderStates&)` (RenderTarget.cpp:585-602).  A null vertex pointer is
modelled by `verticesNull`. -/
def draw (w : World) (verticesNull : Bool) (vertexCount : Nat)
    (states : RenderStates) : World × List GpuCmd :=
  if verticesNull || vertexCount == 0 then (w, [])
  else if isActive w w.rt.id then drawActivated w vertexCount states
  else
    let act := w.rt.setActive true
    if act.2 then drawActivated { w with rt := act.1 } vertexCount states
    else ({ w with rt := act.1 }, [])

/-- The body of `RenderTarget::draw(const VertexBuffer&, ...)` once the
target is active (RenderTarget.cpp:631-635). -/
def drawVertexBufferActivated (w : World) (firstVertex vertexCount : Nat)
    (states : RenderStates) : World × List GpuCmd :=
  let s := setupDraw w states
  (cleanupDraw s.1, s.2 ++ [.drawFromVertexBuffer firstVertex vertexCount])

/-- `RenderTarget::draw(const VertexBuffer&, std::size_t, std::size_t, const
RenderStates&)` (RenderTarget.cpp:613-637): reject `firstVertex` beyond the
buffer's vertex count, clamp `vertexCount`, skip empty draws, then draw.
`bufVertexCount` is `vertexBuffer.getVertexCount()` (VertexBuffer.cpp:176-179). -/
def drawVertexBuffer (w : World) (bufVertexCount firstVertex vertexCount : Nat)
    (states : RenderStates) : World × List GpuCmd :=
  if bufVertexCount < firstVertex then (w, [])
  else
    let clamped := min vertexCount (bufVertexCount - firstVertex)
    if clamped == 0 then (w, [])
    else if isActive w w.rt.id then
      drawVertexBufferActivated w firstVertex clamped states
    else
      let act := w.rt.setActive true
      if act.2 then drawVertexBufferActivated { w with rt := act.1 } firstVertex clamped states
      else ({ w with rt := act.1 }, [])

/-- `RenderTarget::initialize` (RenderTarget.cpp:696-708), renamed to avoid
a reserved word: reset default and current view from the current pixel size,
defer GL state setup, assign the unique id (drawn from the process-wide
generator; threaded here as a parameter). -/
def initTarget (w : World) (id : Nat) : World :=
  let dv := w.rt.defaultView.reset
    ⟨0, 0, (w.screenSize.x : Rat), (w.screenSize.y : Rat)⟩
  { w with
    rt := { w.rt with
            defaultView := dv
            view := dv
            cache := { w.rt.cache with glStatesSet := false }
            id := id } }

/-- `RenderWindow::onResize` (RenderWindow.cpp:132-139): store the new pixel
size and re-set the current view (marking it dirty). -/
def onResize (w : World) (newW newH : Nat) : World :=
  let w := { w with screenSize := ⟨newW, newH⟩ }
  { w with rt := setView w.rt w.rt.view }

/-- A window-backed target as produced by `RenderWindow(w, h)` followed by
`onCreate` → `RenderTarget::initialize` (RenderWindow.cpp:38-42, 124-128):
fresh cache (`m_cache.glStatesSet = false`, RenderTarget.cpp:465-474), no
target active yet in the context. -/
def freshWindow (wpx hpx id : Nat) : World :=
  initTarget
    { lastActiveId := 0, screenSize := ⟨wpx, hpx⟩,
      rt := { defaultView := View.default, view := View.default,
              cache := ⟨false, false, false, blendAlpha⟩, id := 0 } }
    id

/-- Number of blend-mode GPU configurations (`applyBlendMode` call sites)
in a command trace. -/
def countBlendConfigs (cs : List GpuCmd) : Nat :=
  (cs.filter fun c => match c with | .blendConfig _ => true | _ => false).length

/-- A sequence of `draw(vertices, 4, type, states)` calls, one per listed
blend mode, returning the final world and the per-call command traces. -/
def drawRun (w : World) : List BlendMode → World × List (List GpuCmd)
  | [] => (w, [])
  | m :: ms =>
    let r := draw w false 4 ⟨m⟩
    let rest := drawRun r.1 ms
    (rest.1, r.2 :: rest.2)

/-- Per-call blend-configuration counts of a `drawRun`. -/
def blendCountsOfRun (w : World) (ms : List BlendMode) : List Nat :=
  (drawRun w ms).2.map countBlendConfigs

/-- The steady state reached after a draw on the last-active target: cache
enabled, GL defaults applied, view clean, a known last-applied blend mode. -/
def Steady (w : World) (m : BlendMode) : Prop :=
  w.lastActiveId = w.rt.id ∧ w.rt.cache = ⟨true, true, false, m⟩

/-- A draw on a steady target issues a blend configuration exactly when the
requested mode differs from the cached one, and leaves the target steady on
the requested mode. -/
theorem draw_steady (w : World) (m m' : BlendMode) (h : Steady w m) :
    countBlendConfigs (draw w false 4 ⟨m'⟩).2 = (if m' = m then 0 else 1) ∧
      Steady (draw w false 4 ⟨m'⟩).1 m' := by
  obtain ⟨hact, hc⟩ := h
  by_cases hm : m' = m <;>
    simp [draw, drawActivated, setupDraw, cleanupDraw, applyBlendMode, isActive,
      hact, hc, countBlendConfigs, Steady, hm]

/-- The first draw on a freshly initialized, last-active target (GL defaults
not yet applied) issues the default blend configuration during the lazy
state reset, plus one more if the requested mode differs from the default;
it leaves the target steady on the requested mode. -/
theorem draw_coldstart (w : World) (m : BlendMode)
    (hact : w.lastActiveId = w.rt.id) (hset : w.rt.cache.glStatesSet = false) :
    countBlendConfigs (draw w false 4 ⟨m⟩).2 = (if m = blendAlpha then 1 else 2) ∧
      Steady (draw w false 4 ⟨m⟩).1 m := by
  by_cases hm : m = blendAlpha <;>
    simp [draw, drawActivated, setupDraw, resetGLStates, cleanupDraw, applyBlendMode,
      applyCurrentView, setView, RenderTargetState.setActive, isActive,
      hact, hset, countBlendConfigs, Steady, hm]

/-- `clear` always records this target as the last active one and touches
neither the target id nor the states-set flag (RenderTarget.cpp:485-494). -/
theorem clear_lastActive (w : World) (c : Color) :
    (clear w c).1.lastActiveId = w.rt.id ∧ (clear w c).1.rt.id = w.rt.id ∧
      (clear w c).1.rt.cache.glStatesSet = w.rt.cache.glStatesSet := by
  simp only [clear, RenderTargetState.setActive]
  split <;> simp

/-- `drawRun` distributes over list append. -/
theorem drawRun_append (ms ms' : List BlendMode) : ∀ w : World,
    drawRun w (ms ++ ms') =
      ((drawRun (drawRun w ms).1 ms').1, (drawRun w ms).2 ++ (drawRun (drawRun w ms).1 ms').2) := by
  induction ms with
  | nil => intro w; simp [drawRun]
  | cons m ms ih => intro w; simp [drawRun, ih]

/-- On a steady target, a run of draws with the cached blend mode issues no
blend configuration at all and stays steady. -/
theorem steady_run (n : Nat) : ∀ (w : World) (m : BlendMode), Steady w m →
    blendCountsOfRun w (List.replicate n m) = List.replicate n 0 ∧
      Steady (drawRun w (List.replicate n m)).1 m := by
  induction n with
  | zero => intro w m h; simpa [blendCountsOfRun, drawRun] using h
  | succ n ih =>
    intro w m h
    obtain ⟨hcount, hsteady⟩ := draw_steady w m m h
    obtain ⟨hrun, hsteady'⟩ := ih (draw w false 4 ⟨m⟩).1 m hsteady
    simp only [List.replicate_succ, blendCountsOfRun, drawRun, List.map_cons] at *
    exact ⟨by simp [hcount, hrun], hsteady'⟩

/-- Claim C2 (counterexample): the blend-mode configuration is NOT issued
"exactly once, on the first call only".  (a) On a fresh window that was
never cleared, two draws with the unchanged default blend mode each issue
one blend configuration (`[1, 1]`, the claim requires `[1, 0]`): the draws
never update the last-active-target id, so every call re-runs `setActive`
and invalidates the cache.  (b) Even on a cleared (last-active) target, the
first draw with a non-default mode issues two configurations (the default
one inside the lazy `resetGLStates`, then the requested one), not exactly
one. -/
theorem c2_blend_once_counterexample :
    (blendCountsOfRun (freshWindow 800 600 1) [blendAlpha, blendAlpha] = [1, 1] ∧
      blendCountsOfRun (freshWindow 800 600 1) [blendAlpha, blendAlpha] ≠ [1, 0]) ∧
    (blendCountsOfRun (clear (freshWindow 800 600 1) ⟨0, 0, 0, 255⟩).1 [blendAdd] = [2] ∧
      blendCountsOfRun (clear (freshWindow 800 600 1) ⟨0, 0, 0, 255⟩).1 [blendAdd] ≠ [1]) := by
  exact ⟨⟨by decide, by decide⟩, ⟨by decide, by decide⟩⟩

/-- Claim C2 (amended): on a target that has been made the last-active one
by `clear` and whose GL defaults are not yet applied, a run of draws with an
unchanged blend mode `m` issues the blend-mode GPU configuration only on the
first call — exactly once if `m` is the default `blendAlpha`, twice
otherwise (the default during the lazy state reset, then `m`) — and zero
times on every subsequent call; changing the blend mode to `m'` afterwards
triggers exactly one reconfiguration on that next draw. -/
theorem c2_blend_once_amended (w₀ : World) (c : Color) (m m' : BlendMode) (n : Nat)
    (hset : w₀.rt.cache.glStatesSet = false) (hne : m' ≠ m) :
    blendCountsOfRun (clear w₀ c).1 (m :: (List.replicate n m ++ [m'])) =
      (if m = blendAlpha then 1 else 2) :: (List.replicate n 0 ++ [1]) := by
  obtain ⟨ha1, ha2, ha3⟩ := clear_lastActive w₀ c
  have hact : (clear w₀ c).1.lastActiveId = (clear w₀ c).1.rt.id := by rw [ha1, ha2]
  have hset' : (clear w₀ c).1.rt.cache.glStatesSet = false := by rw [ha3, hset]
  obtain ⟨hc1, hs1⟩ := draw_coldstart (clear w₀ c).1 m hact hset'
  obtain ⟨hc2, hs2⟩ := steady_run n (draw (clear w₀ c).1 false 4 ⟨m⟩).1 m hs1
  obtain ⟨hc3, _⟩ := draw_steady (drawRun (draw (clear w₀ c).1 false 4 ⟨m⟩).1
      (List.replicate n m)).1 m m' hs2
  simp only [blendCountsOfRun, drawRun, drawRun_append, List.map_cons, List.map_append,
    List.map_nil] at *
  rw [hc1, hc2, hc3, if_neg hne]

/-- Witness for C2 (amended) at a concrete input: a fresh 800×600 window,
cleared, then three draws with the default mode followed by one with the
additive mode. -/
theorem c2_blend_once_amended_witness :
    ((freshWindow 800 600 1).rt.cache.glStatesSet = false ∧ blendAdd ≠ blendAlpha) ∧
    blendCountsOfRun (clear (freshWindow 800 600 1) ⟨0, 0, 0, 255⟩).1
        (blendAlpha :: (List.replicate 2 blendAlpha ++ [blendAdd])) =
      (if blendAlpha = blendAlpha then 1 else 2) :: (List.replicate 2 0 ++ [1]) :=
  ⟨⟨by decide, by decide⟩,
   c2_blend_once_amended (freshWindow 800 600 1) ⟨0, 0, 0, 255⟩ blendAlpha blendAdd 2
     (by decide) (by decide)⟩

/-- Claim C8: `draw(vertices, count, type, states)` with a null vertex
pointer or a zero count returns before touching anything: the whole world
(in particular every state-cache field) is unchanged and no GPU command is
issued (RenderTarget.cpp:590-592). -/
theorem c8_empty_draw_noop (w : World) (vertexCount : Nat) (states : RenderStates)
    (verticesNull : Bool) :
    draw w true vertexCount states = (w, []) ∧
    draw w verticesNull 0 states = (w, []) := by
  constructor
  · simp [draw]
  · cases verticesNull <;> simp [draw]

/-- `resetGLStates` never writes the process-wide last-active-target id. -/
theorem resetGLStates_lastActiveId (w : World) :
    (resetGLStates w).1.lastActiveId = w.lastActiveId := by
  cases h : isActive w w.rt.id <;>
    simp [resetGLStates, h, RenderTargetState.setActive]

/-- `setupDraw` never writes the process-wide last-active-target id. -/
theorem setupDraw_lastActiveId (w : World) (states : RenderStates) :
    (setupDraw w states).1.lastActiveId = w.lastActiveId := by
  cases h : w.rt.cache.glStatesSet <;>
    simp [setupDraw, h, resetGLStates_lastActiveId]

/-- The active draw body never writes the last-active-target id. -/
theorem drawActivated_lastActiveId (w : World) (n : Nat) (states : RenderStates) :
    (drawActivated w n states).1.lastActiveId = w.lastActiveId := by
  simp [drawActivated, cleanupDraw, setupDraw_lastActiveId]

/-- The active vertex-buffer draw body never writes the last-active-target id. -/
theorem drawVertexBufferActivated_lastActiveId (w : World) (f n : Nat)
    (states : RenderStates) :
    (drawVertexBufferActivated w f n states).1.lastActiveId = w.lastActiveId := by
  simp [drawVertexBufferActivated, cleanupDraw, setupDraw_lastActiveId]

/-- Claim C10 (implicit): `clear` is the only modelled RenderTarget
operation writing the process-wide last-active-target id — both draw
overloads and `resetGLStates` preserve it — so on a target that is not the
last-active one (in particular one on which `clear` was never called) every
vertex draw re-runs `setActive(true)`, which forces `m_cache.enable =
false` on the state handed to `setupDraw`. -/
theorem c10_only_clear_writes_lastActive (w : World) (n : Nat) (states : RenderStates)
    (c : Color) (bufCount first cnt : Nat)
    (hact : w.lastActiveId ≠ w.rt.id) (hn : n ≠ 0) :
    (draw w false n states).1.lastActiveId = w.lastActiveId ∧
    (drawVertexBuffer w bufCount first cnt states).1.lastActiveId = w.lastActiveId ∧
    (resetGLStates w).1.lastActiveId = w.lastActiveId ∧
    (clear w c).1.lastActiveId = w.rt.id ∧
    (w.rt.setActive true).1.cache.enable = false ∧
    draw w false n states =
      drawActivated { w with rt := (w.rt.setActive true).1 } n states := by
  have hia : isActive w w.rt.id = false := by
    simp [isActive, hact]
  have hbeq : (n == 0) = false := by
    cases n with
    | zero => exact absurd rfl hn
    | succ k => rfl
  refine ⟨?_, ?_, resetGLStates_lastActiveId w, (clear_lastActive w c).1, ?_, ?_⟩
  · cases hg : (false || n == 0)
    · cases h2 : isActive w w.rt.id <;>
        simp [draw, hg, h2, RenderTargetState.setActive, drawActivated_lastActiveId]
    · simp [draw, hg]
  · by_cases h1 : bufCount < first
    · simp [drawVertexBuffer, h1]
    · cases h2 : (min cnt (bufCount - first) == 0)
      · cases h3 : isActive w w.rt.id <;>
          simp [drawVertexBuffer, h1, h2, h3, RenderTargetState.setActive,
            drawVertexBufferActivated_lastActiveId]
      · simp [drawVertexBuffer, h1, h2]
  · simp [RenderTargetState.setActive]
  · simp [draw, hia, hbeq, RenderTargetState.setActive]

/-- Witness for C10 at a concrete input: a fresh window (id 1, never
cleared, last-active id 0) and a one-vertex draw. -/
theorem c10_only_clear_writes_lastActive_witness :
    ((freshWindow 800 600 1).lastActiveId ≠ (freshWindow 800 600 1).rt.id ∧ (1 : Nat) ≠ 0) ∧
    ((draw (freshWindow 800 600 1) false 1 ⟨blendAlpha⟩).1.lastActiveId =
        (freshWindow 800 600 1).lastActiveId ∧
      (clear (freshWindow 800 600 1) ⟨0, 0, 0, 255⟩).1.lastActiveId =
        (freshWindow 800 600 1).rt.id ∧
      ((freshWindow 800 600 1).rt.setActive true).1.cache.enable = false) := by
  have h := c10_only_clear_writes_lastActive (freshWindow 800 600 1) 1 ⟨blendAlpha⟩
    ⟨0, 0, 0, 255⟩ 0 0 0 (by decide) (by decide)
  exact ⟨⟨by decide, by decide⟩, h.1, h.2.2.2.1, h.2.2.2.2.1⟩

/-- `setupDraw` issues only state-configuration commands, never a
vertex-buffer draw. -/
theorem setupDraw_no_vbdraw (w : World) (states : RenderStates) (f c : Nat) :
    GpuCmd.drawFromVertexBuffer f c ∉ (setupDraw w states).2 := by
  cases hg : w.rt.cache.glStatesSet <;>
    cases ha : isActive w w.rt.id <;>
    cases he : w.rt.cache.enable <;>
    cases hv : w.rt.cache.viewChanged <;>
    by_cases hb : states.blendMode = blendAlpha <;>
    by_cases hb2 : states.blendMode = w.rt.cache.lastBlendMode <;>
    simp [setupDraw, resetGLStates, applyCurrentView, applyBlendMode, setView,
      RenderTargetState.setActive, hg, ha, he, hv, hb, hb2] <;>
    (try (split <;> simp))

/-- Claim C7: the vertex-buffer draw overload never reads past the buffer:
if `firstVertex` exceeds the buffer's vertex count it draws nothing, and
any GPU draw it does issue starts at `firstVertex` and covers a clamped,
positive count with `firstVertex + count ≤ bufVertexCount`. -/
theorem c7_vertexbuffer_clamp (w : World) (bufVertexCount firstVertex vertexCount : Nat)
    (states : RenderStates) (f c : Nat) :
    (bufVertexCount < firstVertex →
      drawVertexBuffer w bufVertexCount firstVertex vertexCount states = (w, [])) ∧
    (GpuCmd.drawFromVertexBuffer f c ∈
        (drawVertexBuffer w bufVertexCount firstVertex vertexCount states).2 →
      f = firstVertex ∧ f + c ≤ bufVertexCount ∧ c ≤ vertexCount ∧ 0 < c) := by
  constructor
  · intro h
    simp [drawVertexBuffer, h]
  · intro hmem
    have hmin1 := Nat.min_le_left vertexCount (bufVertexCount - firstVertex)
    have hmin2 := Nat.min_le_right vertexCount (bufVertexCount - firstVertex)
    by_cases h1 : bufVertexCount < firstVertex
    · simp [drawVertexBuffer, h1] at hmem
    · cases h2 : (min vertexCount (bufVertexCount - firstVertex) == 0) with
      | true =>
        simp [drawVertexBuffer, h1, h2] at hmem
      | false =>
        have hne : min vertexCount (bufVertexCount - firstVertex) ≠ 0 := by
          intro hz
          rw [hz] at h2
          simp at h2
        cases h3 : isActive w w.rt.id <;>
          simp only [drawVertexBuffer, h1, h2, h3, if_neg, if_pos, Bool.false_eq_true,
            if_false, if_true, RenderTargetState.setActive, drawVertexBufferActivated,
            List.mem_append, List.mem_singleton] at hmem <;>
          rcases hmem with hsetup | hlast
        · exact absurd hsetup (setupDraw_no_vbdraw _ states f c)
        · obtain ⟨hf, hc⟩ := GpuCmd.drawFromVertexBuffer.injEq .. ▸ hlast
          subst hf
          subst hc
          omega
        · exact absurd hsetup (setupDraw_no_vbdraw _ states f c)
        · obtain ⟨hf, hc⟩ := GpuCmd.drawFromVertexBuffer.injEq .. ▸ hlast
          subst hf
          subst hc
          omega

/-- Witness for C7 at a concrete input: a 10-vertex buffer with
`firstVertex = 12` draws nothing. -/
theorem c7_vertexbuffer_clamp_witness :
    (10 : Nat) < 12 ∧
    drawVertexBuffer (freshWindow 800 600 1) 10 12 5 ⟨blendAlpha⟩ =
      (freshWindow 800 600 1, []) :=
  ⟨by decide,
   (c7_vertexbuffer_clamp (freshWindow 800 600 1) 10 12 5 ⟨blendAlpha⟩ 0 0).1 (by decide)⟩

/-- `SfmlRenderPipeline::MAX_VERTEX` (RenderTarget.cpp:120): the fixed
capacity, in vertices, of the pipeline's staging vertex buffer. -/
def MAX_VERTEX : Nat := 256 * 256

/-- `sizeof(sf::Vertex)`: two 32-bit position floats, four 8-bit color
channels, two 32-bit texture-coordinate floats (the attribute layout set up
in RenderTarget.cpp:244-251). -/
def sizeofVertex : Nat := 2 * 4 + 4 + 2 * 4

/-- The staging buffer allocation, in bytes:
`glBufferData(GL_ARRAY_BUFFER, sizeof(sf::Vertex) * MAX_VERTEX, 0, ...)`
(RenderTarget.cpp:242). -/
def stagingBufferBytes : Nat := sizeofVertex * MAX_VERTEX

/-- The bytes uploaded by one pipeline `drawVertices` call:
`glBufferSubData(GL_ARRAY_BUFFER, 0, vertexCount * sizeof(sf::Vertex), vertices)`
(RenderTarget.cpp:392), with no clamping or chunking. -/
def drawVerticesUploadBytes (vertexCount : Nat) : Nat := vertexCount * sizeofVertex

/-- Number of staging-buffer uploads (`drawVertices` dispatches) in a trace. -/
def countUploads (cs : List GpuCmd) : Nat :=
  (cs.filter fun c => match c with | .uploadAndDrawArrays _ _ => true | _ => false).length

/-- Claim C1 (refuted by the code): a draw of `MAX_VERTEX + 1` vertices is
dispatched as a single unchunked upload of the full count whose byte size
exceeds the staging buffer's allocation — the staging path assumes a fixed
capacity instead of sizing or chunking it to the requested count, so large
draws are silently corrupted (`glBufferSubData` past the buffer end fails
with `GL_INVALID_VALUE` and the subsequent `glDrawArrays` reads stale
data). -/
theorem c1_staging_overflow :
    stagingBufferBytes = sizeofVertex * MAX_VERTEX ∧
    drawVerticesUploadBytes (MAX_VERTEX + 1) > stagingBufferBytes ∧
    countUploads (draw (freshWindow 800 600 1) false (MAX_VERTEX + 1) ⟨blendAlpha⟩).2 = 1 ∧
    (draw (freshWindow 800 600 1) false (MAX_VERTEX + 1) ⟨blendAlpha⟩).2.getLast? =
      some (.uploadAndDrawArrays 0 (MAX_VERTEX + 1)) :=
  ⟨rfl, by decide, by decide, by decide⟩

/-- Claim C3 (counterexample): resizing an 800×600 window to 400×300
updates the stored pixel size but leaves the default view exactly as
initialized — its world rectangle still has width 800, not the 400 the
claim's "re-derived from the new pixel size" would require
(RenderWindow.cpp:132-139 only stores the size and re-sets the current
view). -/
theorem c3_resize_counterexample :
    (onResize (freshWindow 800 600 1) 400 300).screenSize = ⟨400, 300⟩ ∧
    (onResize (freshWindow 800 600 1) 400 300).rt.defaultView =
      (freshWindow 800 600 1).rt.defaultView ∧
    (onResize (freshWindow 800 600 1) 400 300).rt.defaultView.size.x = ((800 : Nat) : Rat) ∧
    (onResize (freshWindow 800 600 1) 400 300).rt.defaultView.size.x ≠ ((400 : Nat) : Rat) :=
  ⟨rfl, rfl, rfl, by decide⟩

/-- Claim C3 (amended): `onResize(w, h)` stores the new pixel size — so the
size query and every viewport derived from it use the new width and height —
and re-sets the current view, marking it dirty so that viewport and
projection are re-derived on the next draw; the default view keeps the
rectangle derived at initialization and is not re-derived. -/
theorem c3_resize_amended (w : World) (newW newH : Nat) :
    (onResize w newW newH).screenSize = ⟨newW, newH⟩ ∧
    (onResize w newW newH).rt.view = w.rt.view ∧
    (onResize w newW newH).rt.cache.viewChanged = true ∧
    (onResize w newW newH).rt.defaultView = w.rt.defaultView ∧
    getViewportOf (onResize w newW newH).screenSize (onResize w newW newH).rt.view =
      getViewportOf ⟨newW, newH⟩ w.rt.view ∧
    (onResize w newW newH).lastActiveId = w.lastActiveId :=
  ⟨rfl, rfl, rfl, rfl, rfl, rfl⟩

/-- The shared-pipeline globals (RenderTarget.cpp:432-437): the reference
count (`int pipelineRefCount = 0`) and whether the singleton is allocated
(`pipeline != nullptr`). -/
structure PipelineState where
  pipelineRefCount : Int
  pipelineLive : Bool
deriving DecidableEq, Repr

/-- The initial pipeline globals: count 0, no instance. -/
def pipelineInit : PipelineState := ⟨0, false⟩

/-- `pipelineCreate` (RenderTarget.cpp:441-447): post-increment the count,
allocate the singleton if the count was 0. -/
def pipelineCreate (s : PipelineState) : PipelineState :=
  { pipelineRefCount := s.pipelineRefCount + 1
    pipelineLive := if s.pipelineRefCount = 0 then true else s.pipelineLive }

/-- `pipelineDestroy` (RenderTarget.cpp:451-458): pre-decrement the count,
free the singleton when it reaches 0. -/
def pipelineDestroy (s : PipelineState) : PipelineState :=
  { pipelineRefCount := s.pipelineRefCount - 1
    pipelineLive := if s.pipelineRefCount - 1 = 0 then false else s.pipelineLive }

/-- One RenderTarget lifetime event: `RenderTarget::RenderTarget` calls
`pipelineCreate` and `RenderTarget::~RenderTarget` calls `pipelineDestroy`
(RenderTarget.cpp:465-481); the class has no copy or move operations. -/
inductive TargetEvent where
  | construct
  | destruct
deriving DecidableEq, Repr

/-- Effect of one lifetime event on the pipeline globals. -/
def stepEvent (s : PipelineState) : TargetEvent → PipelineState
  | .construct => pipelineCreate s
  | .destruct => pipelineDestroy s

/-- Fold a sequence of lifetime events over the pipeline globals. -/
def runEvents (s : PipelineState) : List TargetEvent → PipelineState
  | [] => s
  | e :: es => runEvents (stepEvent s e) es

/-- A C++-valid event sequence: starting from `live` constructed targets,
a destructor only ever runs on a live object. -/
def balancedFrom : Nat → List TargetEvent → Bool
  | _, [] => true
  | live, .construct :: es => balancedFrom (live + 1) es
  | live, .destruct :: es => decide (0 < live) && balancedFrom (live - 1) es

/-- Number of live targets after a sequence of lifetime events. -/
def liveAfter : Nat → List TargetEvent → Nat
  | k, [] => k
  | k, .construct :: es => liveAfter (k + 1) es
  | k, .destruct :: es => liveAfter (k - 1) es

/-- Running a valid event sequence keeps the pipeline globals in lockstep
with the number of live targets: the count equals it and the singleton is
allocated exactly while it is positive. -/
theorem runEvents_spec (es : List TargetEvent) : ∀ k : Nat, balancedFrom k es = true →
    runEvents ⟨(k : Int), decide (0 < k)⟩ es =
      ⟨(liveAfter k es : Int), decide (0 < liveAfter k es)⟩ := by
  induction es with
  | nil => intro k _; rfl
  | cons e es ih =>
    intro k hk
    cases e with
    | construct =>
      simp only [balancedFrom] at hk
      have hstep : stepEvent ⟨(k : Int), decide (0 < k)⟩ TargetEvent.construct =
          ⟨((k + 1 : Nat) : Int), decide (0 < k + 1)⟩ := by
        cases k with
        | zero => simp [stepEvent, pipelineCreate]
        | succ j =>
          simp only [stepEvent, pipelineCreate, PipelineState.mk.injEq]
          constructor
          · push_cast
            ring
          · rw [if_neg (by push_cast; omega)]
            simp
      show runEvents (stepEvent _ _) es = _
      rw [hstep]
      exact ih (k + 1) hk
    | destruct =>
      simp only [balancedFrom, Bool.and_eq_true, decide_eq_true_eq] at hk
      obtain ⟨hpos, hk⟩ := hk
      have hstep : stepEvent ⟨(k : Int), decide (0 < k)⟩ TargetEvent.destruct =
          ⟨((k - 1 : Nat) : Int), decide (0 < k - 1)⟩ := by
        match k, hpos with
        | 1, _ => simp [stepEvent, pipelineDestroy]
        | (j + 2), _ =>
          simp only [stepEvent, pipelineDestroy, PipelineState.mk.injEq]
          constructor
          · push_cast
            ring
          · rw [if_neg (by push_cast; omega)]
            simp
      show runEvents (stepEvent _ _) es = _
      rw [hstep]
      exact ih (k - 1) hk

/-- Over a valid event sequence the live-target count is the number of
constructions minus the number of destructions. -/
theorem liveAfter_counts (es : List TargetEvent) : ∀ k : Nat, balancedFrom k es = true →
    (liveAfter k es : Int) =
      (k : Int) + (es.count TargetEvent.construct : Int) -
        (es.count TargetEvent.destruct : Int) := by
  induction es with
  | nil => intro k _; simp [liveAfter]
  | cons e es ih =>
    intro k hk
    cases e with
    | construct =>
      simp only [balancedFrom] at hk
      have := ih (k + 1) hk
      simp only [liveAfter, List.count_cons] at *
      simp only [beq_iff_eq, reduceCtorEq, if_true, if_false] at *
      omega
    | destruct =>
      simp only [balancedFrom, Bool.and_eq_true, decide_eq_true_eq] at hk
      obtain ⟨hpos, hk⟩ := hk
      have := ih (k - 1) hk
      simp only [liveAfter, List.count_cons] at *
      simp only [beq_iff_eq, reduceCtorEq, if_true, if_false] at *
      omega

/-- Claim C4: the pipeline reference count is incremented exactly once per
RenderTarget construction and decremented exactly once per destruction, and
over every C++-valid lifetime sequence the count equals constructions minus
destructions while the singleton is allocated exactly while at least one
target is live — created by the first construction, destroyed by the last
destruction, never destroyed early nor leaked. -/
theorem c4_pipeline_refcount :
    (∀ s : PipelineState, (pipelineCreate s).pipelineRefCount = s.pipelineRefCount + 1) ∧
    (∀ s : PipelineState, (pipelineDestroy s).pipelineRefCount = s.pipelineRefCount - 1) ∧
    (∀ es : List TargetEvent, balancedFrom 0 es = true →
      (runEvents pipelineInit es).pipelineRefCount =
        (es.count TargetEvent.construct : Int) - (es.count TargetEvent.destruct : Int) ∧
      ((runEvents pipelineInit es).pipelineLive = true ↔
        0 < (runEvents pipelineInit es).pipelineRefCount)) := by
  refine ⟨fun s => rfl, fun s => rfl, fun es hes => ?_⟩
  have h0 : pipelineInit = ⟨((0 : Nat) : Int), decide (0 < (0 : Nat))⟩ := rfl
  rw [h0, runEvents_spec es 0 hes]
  have hc := liveAfter_counts es 0 hes
  constructor
  · simpa using hc
  · simp [Nat.cast_pos]

/-- A sample valid lifetime sequence for the C4 witness. -/
def c4Events : List TargetEvent := [.construct, .construct, .destruct, .destruct, .construct]

/-- Witness for C4 at a concrete input: two targets constructed and
destroyed, then a third constructed. -/
theorem c4_pipeline_refcount_witness :
    balancedFrom 0 c4Events = true ∧
    ((runEvents pipelineInit c4Events).pipelineRefCount =
        (c4Events.count TargetEvent.construct : Int) -
          (c4Events.count TargetEvent.destruct : Int) ∧
      ((runEvents pipelineInit c4Events).pipelineLive = true ↔
        0 < (runEvents pipelineInit c4Events).pipelineRefCount)) :=
  ⟨by decide, c4_pipeline_refcount.2.2 c4Events (by decide)⟩

/-- 2^64: `sf::Uint64` arithmetic is modulo this. -/
def UINT64_MOD : Nat := 2 ^ 64

/-- The state of one `getUniqueId` counter
(`static sf::Uint64 id = 1; return id++;`, RenderTarget.cpp:55-62 and
Texture.cpp:46-53; the surrounding mutex only serializes the increment). -/
structure IdGenerator where
  nextId : Nat
deriving DecidableEq, Repr

/-- Initial counter state: ids start at 1, 0 is reserved for "none". -/
def IdGenerator.init : IdGenerator := ⟨1⟩

/-- `getUniqueId`: return the current id and post-increment (as Uint64). -/
def getUniqueId (g : IdGenerator) : Nat × IdGenerator :=
  (g.nextId, ⟨(g.nextId + 1) % UINT64_MOD⟩)

/-- Counter state after `k` calls to `getUniqueId`. -/
def genStateAfter : Nat → IdGenerator
  | 0 => IdGenerator.init
  | k + 1 => (getUniqueId (genStateAfter k)).2

/-- The id returned by the `k`-th call (0-based) to `getUniqueId`. -/
def nthUniqueId (k : Nat) : Nat := (getUniqueId (genStateAfter k)).1

/-- Closed form of the counter state. -/
theorem genStateAfter_eq (k : Nat) : genStateAfter k = ⟨(1 + k) % UINT64_MOD⟩ := by
  have hlt : (1 : Nat) % UINT64_MOD = 1 := Nat.mod_eq_of_lt (by norm_num [UINT64_MOD])
  induction k with
  | zero => simp [genStateAfter, IdGenerator.init, hlt]
  | succ k ih =>
    show (getUniqueId (genStateAfter k)).2 = _
    rw [ih]
    simp only [getUniqueId]
    congr 1
    conv_rhs => rw [show 1 + (k + 1) = (1 + k) + 1 from by omega, Nat.add_mod, hlt]

/-- Below the wrap-around point the `k`-th id is just `1 + k`. -/
theorem nthUniqueId_eq (k : Nat) (hk : k < UINT64_MOD - 1) : nthUniqueId k = 1 + k := by
  unfold nthUniqueId
  rw [genStateAfter_eq]
  show (1 + k) % UINT64_MOD = 1 + k
  apply Nat.mod_eq_of_lt
  rw [show UINT64_MOD = 2 ^ 64 from rfl] at hk ⊢
  norm_num at hk ⊢
  omega

/-- The two independent process-wide counters: one in RenderTarget.cpp's
anonymous namespace (target ids), one in Texture.cpp's (texture cache ids). -/
structure ProcessIdState where
  targetIds : IdGenerator
  textureIds : IdGenerator
deriving DecidableEq, Repr

/-- Draw a fresh RenderTarget id (used by `RenderTarget::initialize`). -/
def targetFreshId (s : ProcessIdState) : Nat × ProcessIdState :=
  ((getUniqueId s.targetIds).1, { s with targetIds := (getUniqueId s.targetIds).2 })

/-- Draw a fresh Texture cache id (used by `Texture`'s constructors and
mutators). -/
def textureFreshId (s : ProcessIdState) : Nat × ProcessIdState :=
  ((getUniqueId s.textureIds).1, { s with textureIds := (getUniqueId s.textureIds).2 })

/-- Claim C9: each unique-id counter starts at 1 (0 reserved for "none"),
is strictly increasing, and never hands out the same id twice (within the
2^64 range of `sf::Uint64`); drawing a target id leaves the texture counter
untouched and vice versa, so the two streams are independent. -/
theorem c9_unique_ids (i j : Nat) (s : ProcessIdState)
    (hi : i < UINT64_MOD - 1) (hj : j < UINT64_MOD - 1) :
    nthUniqueId 0 = 1 ∧
    nthUniqueId i ≠ 0 ∧
    (nthUniqueId i = nthUniqueId j → i = j) ∧
    (i < j → nthUniqueId i < nthUniqueId j) ∧
    (targetFreshId s).2.textureIds = s.textureIds ∧
    (textureFreshId s).2.targetIds = s.targetIds := by
  have hii := nthUniqueId_eq i hi
  have hjj := nthUniqueId_eq j hj
  refine ⟨?_, by omega, by omega, by omega, rfl, rfl⟩
  simpa using nthUniqueId_eq 0 (by norm_num [UINT64_MOD])

/-- Witness for C9 at a concrete input: the first two ids of a stream and a
concrete pair of counters. -/
theorem c9_unique_ids_witness :
    ((0 : Nat) < UINT64_MOD - 1 ∧ (1 : Nat) < UINT64_MOD - 1) ∧
    (nthUniqueId 0 = 1 ∧ nthUniqueId 0 ≠ 0 ∧
      (nthUniqueId 0 = nthUniqueId 1 → 0 = 1) ∧
      ((0 : Nat) < 1 → nthUniqueId 0 < nthUniqueId 1) ∧
      (targetFreshId ⟨⟨1⟩, ⟨1⟩⟩).2.textureIds = (⟨⟨1⟩, ⟨1⟩⟩ : ProcessIdState).textureIds ∧
      (textureFreshId ⟨⟨1⟩, ⟨1⟩⟩).2.targetIds = (⟨⟨1⟩, ⟨1⟩⟩ : ProcessIdState).targetIds) :=
  ⟨⟨by norm_num [UINT64_MOD], by norm_num [UINT64_MOD]⟩,
   c9_unique_ids 0 1 ⟨⟨1⟩, ⟨1⟩⟩ (by norm_num [UINT64_MOD]) (by norm_num [UINT64_MOD])⟩

end SfmlGraphics
